import Mathlib

/-!
Shallow embedding of the parameter-discovery core of the x8 scanner
(src/runner/logic.rs): the chunk bisector `check_parameters_recursion`,
the split helper `repeat`, and the batch dispatcher `check_parameters`.

External collaborators (HTTP transport, response differ, writer) are modelled
as an oracle environment `Env`; every outbound probe consumes one `tick` and is
recorded in the probe trace, so that statements about which probes are issued
are expressible.  The dispatcher model corresponds to `config.concurrency = 1`,
under which `buffer_unordered` polls the chunk futures strictly in order.
Rust panics (division by zero, `Option::unwrap` on `None`) are modelled as a
distinguished `panicked` outcome.
-/

namespace x8

/-- Response as used by logic.rs: a status code and a body text
(the differ-relevant structural features live behind the `Env` oracles). -/
structure Response where
  code : Nat
  text : String
deriving DecidableEq, Repr

/-- Modelled from the spec: `Response::default()` — used by `unwrap_or_default()`
at the stability control probe.  `network/response.rs` is outside `src/`; a
derived `Default` yields status code `0` and an empty body. -/
def defaultResponse : Response := ⟨0, ""⟩

/-- Reason kinds of a finding, from runner/utils.rs (`ReasonKind`). -/
inductive ReasonKind
  | Reflected
  | NotReflected
  | Code
  | Text
deriving DecidableEq, Repr

/-- Modelled from the spec: `FoundParameter` (runner/utils.rs is outside `src/`).
Fields follow the spec's data model; `diffs` is stored as the `"|"`-joined
signature, as the strict checks in logic.rs compare
`x.diffs == new_diffs.join("|")`. -/
structure FoundParameter where
  name : String
  diffs : String
  status_code : Nat
  body_length : Nat
  reason : ReasonKind
deriving DecidableEq, Repr

/-- Modelled from the spec: `FoundParameter::new` stores the name, the joined
diff signature, the status code, the body length and the reason. -/
def FoundParameter.new (name : String) (diffs : List String) (code : Nat)
    (size : Nat) (reason : ReasonKind) : FoundParameter :=
  ⟨name, String.intercalate "|" diffs, code, size, reason⟩

/-- One outbound probe, as recorded in the trace:
`real` is `Request::new(defaults, params).wrapped_send()`,
`randomPlain` is `Request::new_random(defaults, n).send()`,
`randomWrapped` is `Request::new_random(defaults, n).wrapped_send()`. -/
inductive Probe
  | real (params : List String)
  | randomPlain (arity : Nat)
  | randomWrapped (arity : Nat)
deriving DecidableEq, Repr

/-- The shared mutable scan state (the three `Arc<Mutex<..>>` ledger fields of
logic.rs) together with the instrumentation: a probe counter `tick` and the
ordered probe trace. -/
structure RunState where
  diffs : List String
  green_lines : List (String × Nat)
  found_params : List FoundParameter
  tick : Nat
  probes : List Probe
deriving DecidableEq, Repr

/-- Scan configuration flags read by logic.rs. -/
structure Config where
  reflected_only : Bool
  strict : Bool
  concurrency : Nat
deriving Repr

/-- Stability flags (`self.stable`) read by logic.rs. -/
structure StableFlags where
  reflections : Bool
  body : Bool
deriving Repr

/-- The fields of `Runner` that logic.rs reads. -/
structure Runner where
  config : Config
  stable : StableFlags
  max : Nat
  initial_response : Response
  diffs : List String
  url : String

/-- Oracle environment for the external collaborators.  The send oracles are
indexed by the probe `tick`, so consecutive random-name probes may answer
differently (fresh random names).  `reflect` combines
`fill_reflected_parameters` + `proceed_reflected_parameters` against the fixed
baseline; `compare` is `response.compare(&initial_response, &diffs)`;
`writeAndSave` is `response.write_and_save(...)` taking the response, the
reason, the parameter name and the optional diff. -/
structure Env where
  wrappedSend : Nat → List String → Except String Response
  randomSend : Nat → Nat → Except String Response
  randomWrapped : Nat → Nat → Except String Response
  emptyResponse : Response
  reflect : Response → Option String × Bool
  compare : Response → List String → Except String (List String × List String)
  writeAndSave : Response → ReasonKind → String → Option String → Except String Unit

/-- Result of one bisector invocation: `Result<(), Box<dyn Error>>`, plus a
distinguished constructor for Rust panics. -/
inductive RunResult
  | ok
  | err (msg : String)
  | panicked (msg : String)
deriving DecidableEq, Repr

/-- Record one outbound probe: bump the tick and append to the trace. -/
def recordProbe (s : RunState) (p : Probe) : RunState :=
  { s with tick := s.tick + 1, probes := s.probes ++ [p] }

/-- HashMap get, on the association-list model of `HashMap<String, usize>`. -/
def hmGet (m : List (String × Nat)) (k : String) : Option Nat :=
  (m.find? (fun p => p.1 == k)).map (fun p => p.2)

/-- HashMap insert (replace the value if the key is present, append otherwise). -/
def hmInsert (m : List (String × Nat)) (k : String) (v : Nat) : List (String × Nat) :=
  if m.any (fun p => p.1 == k) then
    m.map (fun p => if p.1 == k then (k, v) else p)
  else m ++ [(k, v)]

/-- State with the counter for `key` set to `v` (used to phrase theorems about
the counter block). -/
def bumpInsert (s : RunState) (key : String) (v : Nat) : RunState :=
  { s with green_lines := hmInsert s.green_lines key v }

/-- Outcome of the reflection sub-phase: an early return from the enclosing
function, or fall-through with the (possibly shrunken) params and the repeat
flag. -/
inductive StepOut
  | halt (r : RunResult) (s : RunState)
  | cont (params : List String) (s : RunState) (rep : Bool)
deriving DecidableEq, Repr

/-- Lines 96-138 of logic.rs: the body of `if self.stable.reflections` up to
(but excluding) the `if repeat` / `if reflected_only` tail.  Annotate the
response, read `(reflected_parameter, repeat)`; when a fresh name was
reflected, push it to `found_params` (demoted to `NotReflected` when the chunk
is a singleton), remove it from `params` (the `position(..).unwrap()` panics
when it is absent), then `write_and_save` (its error propagates). -/
def reflectionStep (E : Env) (params : List String) (response : Response)
    (s : RunState) : StepOut :=
  let pr := E.reflect response
  let rep := pr.2
  match pr.1 with
  | none => StepOut.cont params s rep
  | some reflected_parameter =>
    if s.found_params.any (fun x => x.name == reflected_parameter) then
      StepOut.cont params s rep
    else
      let kind := if params.length == 1 then ReasonKind.NotReflected
                  else ReasonKind.Reflected
      let s1 := { s with found_params := s.found_params ++
        [FoundParameter.new reflected_parameter [] response.code
          response.text.length kind] }
      match List.findIdx? (fun x => x == reflected_parameter) params with
      | none => StepOut.halt (RunResult.panicked
          "called Option::unwrap on a None value") s1
      | some i =>
        let params1 := params.eraseIdx i
        match E.writeAndSave response kind reflected_parameter none with
        | Except.error m => StepOut.halt (RunResult.err m) s1
        | Except.ok _ => StepOut.cont params1 s1 rep

/-- Outcome of the response-code counter block: an early return (the page
became unstable), or fall-through with the updated state. -/
inductive GreenOut
  | halt (r : RunResult) (s : RunState)
  | cont (s : RunState)
deriving DecidableEq, Repr

/-- Lines 160-191 of logic.rs: the `green_lines` counter block, entered when
the response code differs from the baseline.  A missing counter is inserted
at 0; a present counter `n_val` is re-inserted as `n_val + 1`, and when
`n_val > 50` a random control probe (`wrapped_send`, `unwrap_or_default`) is
issued: a still-divergent control code is fatal, otherwise the counter is
reset to 0. -/
def green_lines_step (R : Runner) (E : Env) (arity : Nat) (response_code : Nat)
    (s : RunState) : GreenOut :=
  match hmGet s.green_lines (toString response_code) with
  | some n_val =>
    let gl1 := hmInsert s.green_lines (toString response_code) (n_val + 1)
    let s1 := { s with green_lines := gl1 }
    if n_val > 50 then
      let check_response := match E.randomWrapped s1.tick arity with
        | Except.ok v => v
        | Except.error _ => defaultResponse
      let s2 := recordProbe s1 (Probe.randomWrapped arity)
      if check_response.code != R.initial_response.code then
        GreenOut.halt (RunResult.err
          (R.url ++ " The page became unstable (code)")) s2
      else
        let gl2 := hmInsert s2.green_lines (toString response_code) 0
        GreenOut.cont { s2 with green_lines := gl2 }
    else GreenOut.cont s1
  | none =>
    let gl0 := hmInsert s.green_lines (toString response_code) 0
    GreenOut.cont { s with green_lines := gl0 }

/-- Outcome of the body-difference sub-phase: early return, fall-through to
`Ok(())`, or `return self.repeat(params, depth + 1)`. -/
inductive BodyOut
  | halt (r : RunResult) (s : RunState)
  | done (s : RunState)
  | callRepeat (s : RunState)
deriving DecidableEq, Repr

/-- Lines 228-311 of logic.rs: the body-difference sub-phase (entered when the
codes matched and `stable.body` holds).  Compare against the stored diffs;
when new diffs exist, the strict signature check may return early, then a
random control probe is sent and its diffs are appended to the ledger as
noise; finally the first still-unique diff either yields a `Text` finding (for
a fresh singleton chunk, after a second strict check) or a `repeat` on the
chunk. -/
def bodyStep (R : Runner) (E : Env) (params : List String) (response : Response)
    (s : RunState) : BodyOut :=
  match E.compare response s.diffs with
  | Except.error m => BodyOut.halt (RunResult.err m) s
  | Except.ok cres =>
    let new_diffs := cres.2
    let afterCtl : BodyOut :=
      if !new_diffs.isEmpty then
        if R.config.strict &&
            s.found_params.any (fun x =>
              x.diffs == String.intercalate "|" new_diffs) then
          BodyOut.halt RunResult.ok s
        else
          let ctl := E.randomSend s.tick params.length
          let s1 := recordProbe s (Probe.randomPlain params.length)
          match ctl with
          | Except.error m => BodyOut.halt (RunResult.err m) s1
          | Except.ok tmp_resp =>
            match E.compare tmp_resp s1.diffs with
            | Except.error m => BodyOut.halt (RunResult.err m) s1
            | Except.ok tres =>
              BodyOut.done { s1 with diffs := s1.diffs ++ tres.2 }
      else BodyOut.done s
    match afterCtl with
    | BodyOut.done s2 =>
      match new_diffs.find? (fun d => !(s2.diffs.contains d)) with
      | none => BodyOut.done s2
      | some diff =>
        if params.length == 1 &&
            !(s2.found_params.any (fun x => x.name == params.headD "")) then
          if R.config.strict &&
              s2.found_params.any (fun x =>
                x.diffs == String.intercalate "|" new_diffs) then
            BodyOut.halt RunResult.ok s2
          else
            match E.writeAndSave response ReasonKind.Text (params.headD "")
                (some diff) with
            | Except.error m => BodyOut.halt (RunResult.err m) s2
            | Except.ok _ =>
              BodyOut.done { s2 with found_params := s2.found_params ++
                [FoundParameter.new (params.headD "") new_diffs response.code
                  response.text.length ReasonKind.Text] }
        else BodyOut.callRepeat s2
    | other => other

/-- State carried by a `StepOut`, whichever branch was taken. -/
def StepOut.state : StepOut → RunState
  | StepOut.halt _ s => s
  | StepOut.cont _ s _ => s

/-- State carried by a `GreenOut`, whichever branch was taken. -/
def GreenOut.state : GreenOut → RunState
  | GreenOut.halt _ s => s
  | GreenOut.cont s => s

/-- State carried by a `BodyOut`, whichever branch was taken. -/
def BodyOut.state : BodyOut → RunState
  | BodyOut.halt _ s => s
  | BodyOut.done s => s
  | BodyOut.callRepeat s => s

/-- The two mutually recursive entry points of logic.rs, defunctionalised:
`check_parameters_recursion(params, recursion_depth)` and
`repeat(params, recursion_depth)`. -/
inductive Call
  | check_parameters_recursion (params : List String) (recursion_depth : Nat)
  | repeat (params : List String) (recursion_depth : Nat)
deriving DecidableEq, Repr

/-- Lines 95-313 of logic.rs: everything after the probe step, with `k`
standing for the recursive entry (each `return self.repeat(.., depth + 1)`
becomes `k (Call.repeat .. (depth + 1))`).  The reflection sub-phase runs only
under `stable.reflections`, and the `repeat`-flag recursion and the
`reflected_only` early return live inside that same block; then the
code-difference sub-phase, else the body sub-phase under `stable.body`. -/
def afterProbeF (R : Runner) (E : Env)
    (k : Call → RunState → RunResult × RunState)
    (params : List String) (recursion_depth : Nat) (response : Response)
    (s : RunState) : RunResult × RunState :=
  let codeBody := fun (params : List String) (sC : RunState) =>
    if R.initial_response.code != response.code then
      match green_lines_step R E params.length response.code sC with
      | GreenOut.halt r s' => (r, s')
      | GreenOut.cont sD =>
        if params.length == 1 then
          match E.writeAndSave response ReasonKind.Code (params.headD "") none with
          | Except.error m => (RunResult.err m, sD)
          | Except.ok _ =>
            (RunResult.ok, { sD with found_params := sD.found_params ++
              [FoundParameter.new (params.headD "")
                [toString R.initial_response.code ++ " -> " ++
                  toString response.code]
                response.code response.text.length ReasonKind.Code] })
        else k (Call.repeat params (recursion_depth + 1)) sD
    else if R.stable.body then
      match bodyStep R E params response sC with
      | BodyOut.halt r s' => (r, s')
      | BodyOut.done s' => (RunResult.ok, s')
      | BodyOut.callRepeat s' => k (Call.repeat params (recursion_depth + 1)) s'
    else (RunResult.ok, sC)
  if R.stable.reflections then
    match reflectionStep E params response s with
    | StepOut.halt r s' => (r, s')
    | StepOut.cont params' s' rep =>
      if rep then k (Call.repeat params' (recursion_depth + 1)) s'
      else if R.config.reflected_only then (RunResult.ok, s')
      else codeBody params' s'
  else codeBody params s

/-- The mutual recursion of `check_parameters_recursion` and `repeat`
(logic.rs lines 17-314), indexed by structural fuel.  The depth guards of the
source (`recursion_depth > 50` in both functions) make the fuel-exhaustion
case unreachable whenever the fuel exceeds the remaining depth budget; the
fuel-0 case returns the same `Ok` the guard would.
`repeat` splits `params` at `len / 2` via `split_off` and runs the recursion
on both halves, the `?` on the first half aborting on error; for one or fewer
parameters it recurses on the chunk as a whole.
`check_parameters_recursion` first handles the empty chunk and the depth
guard, then probes the chunk; a transport failure triggers a random control
probe of equal arity (success substitutes the empty response, failure is the
fatal unreachable-server error), and the rest is `afterProbeF`. -/
def runF (R : Runner) (E : Env) : Nat → Call → RunState → RunResult × RunState
  | 0, _, s => (RunResult.ok, s)
  | Nat.succ fuel, Call.repeat params recursion_depth, s =>
    if recursion_depth > 50 then (RunResult.ok, s)
    else if params.length ≤ 1 then
      runF R E fuel (Call.check_parameters_recursion params (recursion_depth + 1)) s
    else
      match runF R E fuel
          (Call.check_parameters_recursion (params.take (params.length / 2))
            (recursion_depth + 1)) s with
      | (RunResult.ok, s1) =>
        runF R E fuel
          (Call.check_parameters_recursion (params.drop (params.length / 2))
            (recursion_depth + 1)) s1
      | other => other
  | Nat.succ fuel, Call.check_parameters_recursion params recursion_depth, s =>
    if params.isEmpty then (RunResult.ok, s)
    else if recursion_depth > 50 then (RunResult.ok, s)
    else
      let s1 := recordProbe s (Probe.real params)
      match E.wrappedSend s.tick params with
      | Except.ok val =>
        afterProbeF R E (runF R E fuel) params recursion_depth val s1
      | Except.error _ =>
        let s2 := recordProbe s1 (Probe.randomPlain params.length)
        match E.randomSend s1.tick params.length with
        | Except.ok _ =>
          afterProbeF R E (runF R E fuel) params recursion_depth E.emptyResponse s2
        | Except.error e =>
          (RunResult.err ("Unable to reach server (" ++ e ++ ")"), s2)

/-- Fuel budget for the wrappers: the depth guards fire at depth 51, so a run
started at depth 0 nests at most 52 frames; 100 units are ample. -/
def FUEL : Nat := 100

/-- Source entry point `check_parameters_recursion` (fuelled wrapper). -/
def check_parameters_recursion (R : Runner) (E : Env) (params : List String)
    (recursion_depth : Nat) (s : RunState) : RunResult × RunState :=
  runF R E FUEL (Call.check_parameters_recursion params recursion_depth) s

/-- Result of `check_parameters`: `Ok((diffs, found_params))`, an error, or a
panic. -/
inductive CPResult
  | ok (diffs : List String) (found_params : List FoundParameter)
  | err (msg : String)
  | panicked (msg : String)
deriving DecidableEq, Repr

/-- Consecutive chunks of size `n` (Rust `slice::chunks`, n > 0), via a
length-fuelled helper. -/
def chunksGo (n : Nat) : Nat → List String → List (List String)
  | _, [] => []
  | 0, _ => []
  | Nat.succ fuel, xs => xs.take n :: chunksGo n fuel (xs.drop n)

/-- Rust `params.chunks(max)` for `max > 0`. -/
def chunks (xs : List String) (n : Nat) : List (List String) :=
  chunksGo n xs.length xs

/-- Run the chunk futures in order (the `concurrency = 1` schedule of
`buffer_unordered`): each chunk enters the recursion at depth 0; `Ok` and
`Err` results are collected into the discarded `_futures_data`, while a panic
aborts the whole collection. -/
def runChunks (R : Runner) (E : Env) :
    List (List String) → RunState → Option String × RunState
  | [], s => (none, s)
  | c :: cs, s =>
    match runF R E FUEL (Call.check_parameters_recursion c 0) s with
    | (RunResult.panicked m, s') => (some m, s')
    | (_, s') => runChunks R E cs s'

/-- Lines 317-361 of logic.rs: `check_parameters`.  `max = min(self.max,
params.len())`; the progress-bar arithmetic `params.len() / max` divides by
zero when `max = 0` (a Rust panic); otherwise the dictionary is cut into
chunks of size `max`, the ledger starts from the runner's diffs with empty
counters and findings, all chunks are dispatched, and the final
`(diffs, found_params)` is returned as `Ok` regardless of the collected
per-chunk results. -/
def check_parameters (R : Runner) (E : Env) (params : List String) : CPResult :=
  let max := Nat.min R.max params.length
  if max == 0 then CPResult.panicked "attempt to divide by zero"
  else
    let s0 : RunState :=
      { diffs := R.diffs, green_lines := [], found_params := [],
        tick := 0, probes := [] }
    match runChunks R E (chunks params max) s0 with
    | (some m, _) => CPResult.panicked m
    | (none, s) => CPResult.ok s.diffs s.found_params

/-- Modelled from the spec: variant of `afterProbeF` whose `repeat`-flag branch
recurses on the (possibly shrunken) chunk as a whole —
`bisect(chunk, depth + 1)` — instead of calling the split helper.  Used only
to compare the source behaviour with the spec's words (claim C4); every other
line matches `afterProbeF`. -/
def afterProbeFspecC4 (R : Runner) (E : Env)
    (k : Call → RunState → RunResult × RunState)
    (params : List String) (recursion_depth : Nat) (response : Response)
    (s : RunState) : RunResult × RunState :=
  let codeBody := fun (params : List String) (sC : RunState) =>
    if R.initial_response.code != response.code then
      match green_lines_step R E params.length response.code sC with
      | GreenOut.halt r s' => (r, s')
      | GreenOut.cont sD =>
        if params.length == 1 then
          match E.writeAndSave response ReasonKind.Code (params.headD "") none with
          | Except.error m => (RunResult.err m, sD)
          | Except.ok _ =>
            (RunResult.ok, { sD with found_params := sD.found_params ++
              [FoundParameter.new (params.headD "")
                [toString R.initial_response.code ++ " -> " ++
                  toString response.code]
                response.code response.text.length ReasonKind.Code] })
        else k (Call.repeat params (recursion_depth + 1)) sD
    else if R.stable.body then
      match bodyStep R E params response sC with
      | BodyOut.halt r s' => (r, s')
      | BodyOut.done s' => (RunResult.ok, s')
      | BodyOut.callRepeat s' => k (Call.repeat params (recursion_depth + 1)) s'
    else (RunResult.ok, sC)
  if R.stable.reflections then
    match reflectionStep E params response s with
    | StepOut.halt r s' => (r, s')
    | StepOut.cont params' s' rep =>
      if rep then
        k (Call.check_parameters_recursion params' (recursion_depth + 1)) s'
      else if R.config.reflected_only then (RunResult.ok, s')
      else codeBody params' s'
  else codeBody params s

/-- Modelled from the spec: the recursion of claim C4's words, identical to
`runF` except that the reflection `repeat`-flag branch (inside
`afterProbeFspecC4`) recurses on the chunk as a whole. -/
def runFspecC4 (R : Runner) (E : Env) : Nat → Call → RunState → RunResult × RunState
  | 0, _, s => (RunResult.ok, s)
  | Nat.succ fuel, Call.repeat params recursion_depth, s =>
    if recursion_depth > 50 then (RunResult.ok, s)
    else if params.length ≤ 1 then
      runFspecC4 R E fuel (Call.check_parameters_recursion params (recursion_depth + 1)) s
    else
      match runFspecC4 R E fuel
          (Call.check_parameters_recursion (params.take (params.length / 2))
            (recursion_depth + 1)) s with
      | (RunResult.ok, s1) =>
        runFspecC4 R E fuel
          (Call.check_parameters_recursion (params.drop (params.length / 2))
            (recursion_depth + 1)) s1
      | other => other
  | Nat.succ fuel, Call.check_parameters_recursion params recursion_depth, s =>
    if params.isEmpty then (RunResult.ok, s)
    else if recursion_depth > 50 then (RunResult.ok, s)
    else
      let s1 := recordProbe s (Probe.real params)
      match E.wrappedSend s.tick params with
      | Except.ok val =>
        afterProbeFspecC4 R E (runFspecC4 R E fuel) params recursion_depth val s1
      | Except.error _ =>
        let s2 := recordProbe s1 (Probe.randomPlain params.length)
        match E.randomSend s1.tick params.length with
        | Except.ok _ =>
          afterProbeFspecC4 R E (runFspecC4 R E fuel) params recursion_depth
            E.emptyResponse s2
        | Except.error e =>
          (RunResult.err ("Unable to reach server (" ++ e ++ ")"), s2)

/-! ### Concrete scenario data used by counterexamples and witnesses -/

/-- Runner for the C1 scenario: two singleton chunks; baseline code 200. -/
def C1runner : Runner :=
  { config := { reflected_only := false, strict := false, concurrency := 1 },
    stable := { reflections := false, body := false },
    max := 1, initial_response := ⟨200, "base"⟩, diffs := [], url := "u" }

/-- Environment for the C1 scenario: the probe at tick 0 (chunk `["a"]`)
answers with code 500, every later send fails at the transport layer, so the
second chunk ends in the fatal unreachable-server error. -/
def C1env : Env :=
  { wrappedSend := fun t _ => if t == 0 then Except.ok ⟨500, "x"⟩ else Except.error "down",
    randomSend := fun _ _ => Except.error "down",
    randomWrapped := fun _ _ => Except.error "down",
    emptyResponse := ⟨200, "base"⟩,
    reflect := fun _ => (none, false),
    compare := fun _ _ => Except.ok ([], []),
    writeAndSave := fun _ _ _ _ => Except.ok () }

/-- Initial ledger of the C1 scenario. -/
def C1s0 : RunState :=
  { diffs := [], green_lines := [], found_params := [], tick := 0, probes := [] }

/-- Runner for the C4 scenario: reflection analysis on, body analysis off. -/
def C4runner : Runner :=
  { config := { reflected_only := false, strict := false, concurrency := 1 },
    stable := { reflections := true, body := false },
    max := 2, initial_response := ⟨200, "base"⟩, diffs := [], url := "u" }

/-- Environment for the C4 scenario: the probe at tick 0 yields a response on
which the differ sets the repeat flag (no reflected name); all later probes
yield a quiet response. -/
def C4env : Env :=
  { wrappedSend := fun t _ =>
      if t == 0 then Except.ok ⟨200, "zero"⟩ else Except.ok ⟨200, "quiet"⟩,
    randomSend := fun _ _ => Except.ok ⟨200, "base"⟩,
    randomWrapped := fun _ _ => Except.ok ⟨200, "base"⟩,
    emptyResponse := ⟨200, "base"⟩,
    reflect := fun r => if r.text == "zero" then (none, true) else (none, false),
    compare := fun _ _ => Except.ok ([], []),
    writeAndSave := fun _ _ _ _ => Except.ok () }

/-- Initial ledger of the C4 scenario. -/
def C4s0 : RunState :=
  { diffs := [], green_lines := [], found_params := [], tick := 0, probes := [] }

/-- Runner for the C5 scenario. -/
def C5runner : Runner :=
  { config := { reflected_only := false, strict := false, concurrency := 1 },
    stable := { reflections := true, body := true },
    max := 2, initial_response := ⟨200, "base"⟩, diffs := [], url := "u" }

/-- Environment for the C5 scenario: every real probe times out, every random
control probe succeeds, and the empty synthetic response is baseline-quiet. -/
def C5env : Env :=
  { wrappedSend := fun _ _ => Except.error "timeout",
    randomSend := fun _ _ => Except.ok ⟨200, "random"⟩,
    randomWrapped := fun _ _ => Except.ok ⟨200, "random"⟩,
    emptyResponse := ⟨200, ""⟩,
    reflect := fun _ => (none, false),
    compare := fun _ _ => Except.ok ([], []),
    writeAndSave := fun _ _ _ _ => Except.ok () }

/-- Initial ledger of the C5 scenario. -/
def C5s0 : RunState :=
  { diffs := [], green_lines := [], found_params := [], tick := 0, probes := [] }

/-- Environment for the C6 witness: the differ reflects the name "a". -/
def C6env : Env :=
  { wrappedSend := fun _ _ => Except.ok ⟨200, "echo a"⟩,
    randomSend := fun _ _ => Except.ok ⟨200, "base"⟩,
    randomWrapped := fun _ _ => Except.ok ⟨200, "base"⟩,
    emptyResponse := ⟨200, "base"⟩,
    reflect := fun r => if r.text == "echo a" then (some "a", false) else (none, false),
    compare := fun _ _ => Except.ok ([], []),
    writeAndSave := fun _ _ _ _ => Except.ok () }

/-- Empty ledger used by several concrete scenarios. -/
def emptyState : RunState :=
  { diffs := [], green_lines := [], found_params := [], tick := 0, probes := [] }

/-- Runner for the C7/C10 scenarios: baseline code 200. -/
def C7runner : Runner :=
  { config := { reflected_only := false, strict := false, concurrency := 1 },
    stable := { reflections := false, body := true },
    max := 1, initial_response := ⟨200, "base"⟩, diffs := [], url := "u" }

/-- Environment for the C7 counterexample (its control probes are never
reached in the two cases considered). -/
def C7env : Env :=
  { wrappedSend := fun _ _ => Except.ok ⟨500, "x"⟩,
    randomSend := fun _ _ => Except.ok ⟨200, "base"⟩,
    randomWrapped := fun _ _ => Except.ok ⟨200, "base"⟩,
    emptyResponse := ⟨200, "base"⟩,
    reflect := fun _ => (none, false),
    compare := fun _ _ => Except.ok ([], []),
    writeAndSave := fun _ _ _ _ => Except.ok () }

/-- Environment for the C7-amended witness: the stability control probe
answers 503, which differs from the baseline 200. -/
def C7wenv : Env :=
  { wrappedSend := fun _ _ => Except.ok ⟨503, "x"⟩,
    randomSend := fun _ _ => Except.ok ⟨503, "x"⟩,
    randomWrapped := fun _ _ => Except.ok ⟨503, "x"⟩,
    emptyResponse := ⟨200, "base"⟩,
    reflect := fun _ => (none, false),
    compare := fun _ _ => Except.ok ([], []),
    writeAndSave := fun _ _ _ _ => Except.ok () }

/-- Ledger whose counter for code 500 already reads 50. -/
def C7s50 : RunState :=
  { diffs := [], green_lines := [("500", 50)], found_params := [], tick := 0, probes := [] }

/-- Ledger whose counter for code 503 already reads 51. -/
def C7s51 : RunState :=
  { diffs := [], green_lines := [("503", 51)], found_params := [], tick := 0, probes := [] }

/-- Environment for the C10 witness: the stability control probe itself fails
at the transport layer. -/
def C10env : Env :=
  { wrappedSend := fun _ _ => Except.ok ⟨503, "x"⟩,
    randomSend := fun _ _ => Except.error "down",
    randomWrapped := fun _ _ => Except.error "down",
    emptyResponse := ⟨200, "base"⟩,
    reflect := fun _ => (none, false),
    compare := fun _ _ => Except.ok ([], []),
    writeAndSave := fun _ _ _ _ => Except.ok () }

/-- Runner for the C8 counterexample: `reflected_only` is set but reflection
analysis is disabled. -/
def C8runner : Runner :=
  { config := { reflected_only := true, strict := false, concurrency := 1 },
    stable := { reflections := false, body := false },
    max := 1, initial_response := ⟨200, "base"⟩, diffs := [], url := "u" }

/-- Environment for the C8 counterexample: every probe answers code 500. -/
def C8env : Env :=
  { wrappedSend := fun _ _ => Except.ok ⟨500, "x"⟩,
    randomSend := fun _ _ => Except.ok ⟨500, "x"⟩,
    randomWrapped := fun _ _ => Except.ok ⟨500, "x"⟩,
    emptyResponse := ⟨200, "base"⟩,
    reflect := fun _ => (none, false),
    compare := fun _ _ => Except.ok ([], []),
    writeAndSave := fun _ _ _ _ => Except.ok () }

/-- Runner for the C8 witness: `reflected_only` with reflections enabled. -/
def C8wrunner : Runner :=
  { config := { reflected_only := true, strict := false, concurrency := 1 },
    stable := { reflections := true, body := false },
    max := 2, initial_response := ⟨200, "base"⟩, diffs := [], url := "u" }

/-- Environment for the C8 witness: the probe response reflects name "a". -/
def C8wenv : Env :=
  { wrappedSend := fun _ _ => Except.ok ⟨200, "hit"⟩,
    randomSend := fun _ _ => Except.ok ⟨200, "base"⟩,
    randomWrapped := fun _ _ => Except.ok ⟨200, "base"⟩,
    emptyResponse := ⟨200, "base"⟩,
    reflect := fun r => if r.text == "hit" then (some "a", false) else (none, false),
    compare := fun _ _ => Except.ok ([], []),
    writeAndSave := fun _ _ _ _ => Except.ok () }

/-- Runner for the C9 counterexample. -/
def C9runner : Runner :=
  { config := { reflected_only := false, strict := false, concurrency := 1 },
    stable := { reflections := false, body := false },
    max := 1, initial_response := ⟨200, "base"⟩, diffs := [], url := "u" }

/-- Environment for the C9 counterexample: every probe answers code 500. -/
def C9env : Env :=
  { wrappedSend := fun _ _ => Except.ok ⟨500, "x"⟩,
    randomSend := fun _ _ => Except.ok ⟨500, "x"⟩,
    randomWrapped := fun _ _ => Except.ok ⟨500, "x"⟩,
    emptyResponse := ⟨200, "base"⟩,
    reflect := fun _ => (none, false),
    compare := fun _ _ => Except.ok ([], []),
    writeAndSave := fun _ _ _ _ => Except.ok () }

/-! ### Theorems -/

/-- Depth guard at the `runF` level: at any fuel, a recursion entered with
depth above 50 returns `Ok` and leaves the state untouched. -/
theorem runF_depth_guard (R : Runner) (E : Env) (fuel : Nat) (params : List String)
    (depth : Nat) (s : RunState) (h : 50 < depth) :
    runF R E fuel (Call.check_parameters_recursion params depth) s = (RunResult.ok, s) := by
  cases fuel with
  | zero => rfl
  | succ n =>
    by_cases hp : params.isEmpty = true
    · simp [runF, hp]
    · simp [runF, hp, h]

/-- C3: for every chunk and every recursion depth strictly greater than 50,
`check_parameters_recursion` returns success with the shared state (diffs,
code counters, found list, probe trace) completely unchanged: no probe is
issued and no ledger field is mutated. -/
theorem claim_C3_depth_guard (R : Runner) (E : Env) (params : List String)
    (depth : Nat) (s : RunState) (h : 50 < depth) :
    check_parameters_recursion R E params depth s = (RunResult.ok, s) :=
  runF_depth_guard R E FUEL params depth s h

/-- Witness for C3 at a concrete input. -/
theorem claim_C3_depth_guard_witness :
    50 < 51 ∧
      check_parameters_recursion
          { config := { reflected_only := false, strict := false, concurrency := 1 },
            stable := { reflections := true, body := true },
            max := 1, initial_response := ⟨200, "base"⟩, diffs := [], url := "u" }
          { wrappedSend := fun _ _ => Except.ok ⟨200, "base"⟩,
            randomSend := fun _ _ => Except.ok ⟨200, "base"⟩,
            randomWrapped := fun _ _ => Except.ok ⟨200, "base"⟩,
            emptyResponse := ⟨200, "base"⟩,
            reflect := fun _ => (none, false),
            compare := fun _ _ => Except.ok ([], []),
            writeAndSave := fun _ _ _ _ => Except.ok () }
          ["alpha"] 51
          { diffs := [], green_lines := [], found_params := [], tick := 0, probes := [] }
        = (RunResult.ok,
           { diffs := [], green_lines := [], found_params := [], tick := 0, probes := [] }) :=
  ⟨by decide, claim_C3_depth_guard _ _ ["alpha"] 51 _ (by decide)⟩

/-- C2: on the empty dictionary `check_parameters` does not return
`(initial_diffs, [])` — it panics: `max = min(self.max, 0) = 0` and the
progress-bar arithmetic `params.len() / max` divides by zero. -/
theorem claim_C2_empty_dictionary_divide_by_zero (R : Runner) (E : Env) :
    check_parameters R E [] = CPResult.panicked "attempt to divide by zero" := by
  simp [check_parameters]

/-- C1 counterexample: in this run the bisector for the second chunk returns
the fatal `UnreachableServer` error, yet the dispatcher's result is a success
value `Ok((diffs, found))` — `check_parameters` drops the collected per-chunk
results instead of propagating them (the finding of the first chunk is
retained). -/
theorem claim_C1_counterexample :
    (check_parameters_recursion C1runner C1env ["b"] 0
        (check_parameters_recursion C1runner C1env ["a"] 0 C1s0).2).1
      = RunResult.err "Unable to reach server (down)"
    ∧ check_parameters C1runner C1env ["a", "b"]
      = CPResult.ok [] [FoundParameter.new "a" ["200 -> 500"] 500 1 ReasonKind.Code] := by
  constructor
  · rfl
  · rfl

/-- C1 amended: `check_parameters` never surfaces a bisector error: it either
panics (a Rust panic aborts the collection) or returns `Ok` with the
accumulated diffs and findings, whatever errors individual bisectors
returned. -/
theorem claim_C1_amended (R : Runner) (E : Env) (params : List String) :
    (∃ d f, check_parameters R E params = CPResult.ok d f) ∨
      (∃ m, check_parameters R E params = CPResult.panicked m) := by
  unfold check_parameters
  by_cases h : (Nat.min R.max params.length) == 0
  · simp [h]
  · simp only [h, Bool.false_eq_true, if_false]
    rcases hrc : runChunks R E (chunks params (Nat.min R.max params.length))
        { diffs := R.diffs, green_lines := [], found_params := [], tick := 0, probes := [] }
      with ⟨o, s⟩
    cases o with
    | none => exact Or.inl ⟨s.diffs, s.found_params, by simp [hrc]⟩
    | some m => exact Or.inr ⟨m, by simp [hrc]⟩


/-- C4 counterexample: in a run where the differ sets the repeat flag on a
two-name chunk, the bisector does NOT recurse on the chunk as a whole — it
probes the two singleton halves (the repeat branch calls the split helper
`repeat`), whereas the spec's words (recurse on the whole chunk,
`runFspecC4`) would re-probe the full chunk; the probe traces differ. -/
theorem claim_C4_counterexample :
    (runF C4runner C4env FUEL (Call.check_parameters_recursion ["a", "b"] 0) C4s0).2.probes
      = [Probe.real ["a", "b"], Probe.real ["a"], Probe.real ["b"]]
    ∧ (runFspecC4 C4runner C4env FUEL (Call.check_parameters_recursion ["a", "b"] 0) C4s0).2.probes
      = [Probe.real ["a", "b"], Probe.real ["a", "b"]]
    ∧ (((runF C4runner C4env FUEL (Call.check_parameters_recursion ["a", "b"] 0) C4s0).2.probes
          == (runFspecC4 C4runner C4env FUEL
                (Call.check_parameters_recursion ["a", "b"] 0) C4s0).2.probes)
        = false) :=
  ⟨rfl, rfl, rfl⟩

/-- C4 amended: when the repeat flag is returned by the differ (no fresh
reflected name), the bisector returns `repeat(chunk, depth + 1)` — the split
helper — and for a chunk of two or more names that helper splits the chunk at
`len / 2` and bisects the halves at depth + 2 (sequentially, the first error
aborting); only chunks of length at most one are recursed on as a whole. -/
theorem claim_C4_amended (R : Runner) (E : Env) (fuel : Nat) (params : List String)
    (depth : Nat) (s s2 : RunState) (r : Response)
    (hne : params.isEmpty = false) (hd : depth ≤ 50)
    (hsr : R.stable.reflections = true)
    (hsend : E.wrappedSend s.tick params = Except.ok r)
    (hrefl : E.reflect r = (none, true)) :
    runF R E (fuel + 1) (Call.check_parameters_recursion params depth) s
      = runF R E fuel (Call.repeat params (depth + 1)) (recordProbe s (Probe.real params))
    ∧ (2 ≤ params.length → depth + 1 ≤ 50 →
        runF R E (fuel + 1) (Call.repeat params (depth + 1)) s2
          = match runF R E fuel
                (Call.check_parameters_recursion (params.take (params.length / 2))
                  (depth + 2)) s2 with
            | (RunResult.ok, s3) =>
              runF R E fuel
                (Call.check_parameters_recursion (params.drop (params.length / 2))
                  (depth + 2)) s3
            | other => other) := by
  have hd' : ¬ depth > 50 := by omega
  constructor
  · simp [runF, hne, hd', hsend, afterProbeF, hsr, reflectionStep, hrefl]
  · intro h2 hd2
    have hg : ¬ depth + 1 > 50 := by omega
    have hl : ¬ params.length ≤ 1 := by omega
    simp [runF, hg, hl]

/-- Witness for C4 amended at the concrete C4 scenario. -/
theorem claim_C4_amended_witness :
    runF C4runner C4env (99 + 1) (Call.check_parameters_recursion ["a", "b"] 0) C4s0
      = runF C4runner C4env 99 (Call.repeat ["a", "b"] (0 + 1))
          (recordProbe C4s0 (Probe.real ["a", "b"])) :=
  (claim_C4_amended C4runner C4env 99 ["a", "b"] 0 C4s0 C4s0 ⟨200, "zero"⟩
    rfl (by decide) rfl rfl rfl).1


/-- Helper: a response that is baseline-equivalent for the differ (no
reflections, baseline status code, no new diffs) drives the post-probe phases
to `Ok` with no state change, under every flag combination. -/
theorem afterProbeF_baseline_quiet (R : Runner) (E : Env)
    (k : Call → RunState → RunResult × RunState) (params : List String)
    (depth : Nat) (s : RunState)
    (hre : E.reflect E.emptyResponse = (none, false))
    (hco : E.emptyResponse.code = R.initial_response.code)
    (hcm : ∀ ds, E.compare E.emptyResponse ds = Except.ok ([], [])) :
    afterProbeF R E k params depth E.emptyResponse s = (RunResult.ok, s) := by
  have hbne : (R.initial_response.code != E.emptyResponse.code) = false := by
    simp [hco]
  unfold afterProbeF
  cases hR : R.stable.reflections with
  | false =>
    simp only [Bool.false_eq_true, if_false, hbne]
    cases hB : R.stable.body with
    | false => simp [hB]
    | true => simp [hB, bodyStep, hcm]
  | true =>
    simp only [if_true, reflectionStep, hre]
    cases hRO : R.config.reflected_only with
    | true => simp [hRO]
    | false =>
      simp only [hRO, Bool.false_eq_true, if_false, hbne]
      cases hB : R.stable.body with
      | false => simp [hB]
      | true => simp [hB, bodyStep, hcm]

/-- C5: when the probe for a chunk fails at the transport layer, the bisector
sends a random control probe of arity `|chunk|` (visible in the trace).  If
the control succeeds, it proceeds with the empty synthetic response — assumed
baseline-equivalent for the differ — and returns success with no ledger
mutation beyond the two trace entries; if the control also fails, it returns
the fatal unreachable-server error, again with no ledger mutation. -/
theorem claim_C5_transport_failure (R : Runner) (E : Env) (fuel : Nat)
    (params : List String) (depth : Nat) (s : RunState) (e : String)
    (hne : params.isEmpty = false) (hd : depth ≤ 50)
    (hsend : E.wrappedSend s.tick params = Except.error e) :
    (∀ r, E.randomSend (s.tick + 1) params.length = Except.ok r →
       E.reflect E.emptyResponse = (none, false) →
       E.emptyResponse.code = R.initial_response.code →
       (∀ ds, E.compare E.emptyResponse ds = Except.ok ([], [])) →
       runF R E (fuel + 1) (Call.check_parameters_recursion params depth) s
         = (RunResult.ok,
            recordProbe (recordProbe s (Probe.real params))
              (Probe.randomPlain params.length)))
    ∧ (∀ e2, E.randomSend (s.tick + 1) params.length = Except.error e2 →
       runF R E (fuel + 1) (Call.check_parameters_recursion params depth) s
         = (RunResult.err ("Unable to reach server (" ++ e2 ++ ")"),
            recordProbe (recordProbe s (Probe.real params))
              (Probe.randomPlain params.length))) := by
  have hd' : ¬ depth > 50 := by omega
  constructor
  · intro r hctl hre hco hcm
    simp only [runF, hne, Bool.false_eq_true, if_false, hd', recordProbe, hsend]
    simp only [hctl]
    exact afterProbeF_baseline_quiet R E _ params depth _ hre hco hcm
  · intro e2 hctl
    simp only [runF, hne, Bool.false_eq_true, if_false, hd', recordProbe, hsend]
    simp only [hctl]

/-- Witness for C5: the success arm at the concrete C5 scenario. -/
theorem claim_C5_transport_failure_witness :
    runF C5runner C5env (99 + 1) (Call.check_parameters_recursion ["x", "y"] 0) C5s0
      = (RunResult.ok,
         recordProbe (recordProbe C5s0 (Probe.real ["x", "y"])) (Probe.randomPlain 2)) :=
  (claim_C5_transport_failure C5runner C5env 99 ["x", "y"] 0 C5s0 "timeout"
      rfl (by decide) rfl).1
    ⟨200, "random"⟩ rfl rfl rfl (fun _ => rfl)


/-- C6: when the reflection sub-phase yields a fresh name present in the
chunk and the writer succeeds, the finding is appended with reason
`Reflected`, demoted to `NotReflected` exactly when the chunk is a singleton,
and the name is removed from the chunk. -/
theorem claim_C6_reflection_classification (E : Env) (params : List String)
    (r : Response) (s : RunState) (n : String) (rep : Bool) (i : Nat)
    (hrefl : E.reflect r = (some n, rep))
    (hnew : s.found_params.any (fun x => x.name == n) = false)
    (hidx : List.findIdx? (fun x => x == n) params = some i)
    (hwrite : E.writeAndSave r
        (if params.length == 1 then ReasonKind.NotReflected else ReasonKind.Reflected)
        n none = Except.ok ()) :
    reflectionStep E params r s
      = StepOut.cont (params.eraseIdx i)
          { s with found_params := s.found_params ++
              [FoundParameter.new n [] r.code r.text.length
                (if params.length == 1 then ReasonKind.NotReflected
                 else ReasonKind.Reflected)] } rep
    ∧ ((if params.length == 1 then ReasonKind.NotReflected else ReasonKind.Reflected)
         = ReasonKind.NotReflected ↔ params.length = 1) := by
  constructor
  · simp only [reflectionStep, hrefl, hnew, Bool.false_eq_true, if_false, hidx, hwrite]
  · by_cases h : params.length = 1
    · simp [h]
    · have hb : (params.length == 1) = false := by simp [h]
      simp [hb, h]

/-- Witness for C6: a two-name chunk whose first name is reflected. -/
theorem claim_C6_reflection_classification_witness :
    reflectionStep C6env ["a", "b"] ⟨200, "echo a"⟩ emptyState
      = StepOut.cont ["b"]
          { emptyState with found_params :=
              [FoundParameter.new "a" [] 200 6 ReasonKind.Reflected] } false
    ∧ ((if (["a", "b"] : List String).length == 1 then ReasonKind.NotReflected
        else ReasonKind.Reflected)
         = ReasonKind.NotReflected ↔ (["a", "b"] : List String).length = 1) :=
  claim_C6_reflection_classification C6env ["a", "b"] ⟨200, "echo a"⟩ emptyState
    "a" false 0 rfl rfl rfl rfl

/-- C7 counterexample: the first observation of a divergent code inserts the
counter at 0 (not 1), and a counter reading 50 is bumped to 51 — the new
count exceeds 50 — yet no control probe is issued (the trace is unchanged):
the probe fires only once the pre-increment count exceeds 50. -/
theorem claim_C7_counterexample :
    green_lines_step C7runner C7env 1 500 emptyState
      = GreenOut.cont
          { diffs := [], green_lines := [("500", 0)], found_params := [],
            tick := 0, probes := [] }
    ∧ green_lines_step C7runner C7env 1 500 C7s50
      = GreenOut.cont
          { diffs := [], green_lines := [("500", 51)], found_params := [],
            tick := 0, probes := [] } :=
  ⟨rfl, rfl⟩

/-- C7 amended: the counter for the observed code starts at 0 on its first
observation and is incremented on each later one; the random control probe is
issued exactly when the pre-increment count exceeds 50 (new count above 51);
if the control's code still differs from baseline the fatal unstable-page
error naming the URL is returned, otherwise that counter is reset to 0. -/
theorem claim_C7_amended (R : Runner) (E : Env) (arity rcode : Nat) (s : RunState) :
    (hmGet s.green_lines (toString rcode) = none →
       green_lines_step R E arity rcode s
         = GreenOut.cont (bumpInsert s (toString rcode) 0))
    ∧ (∀ n_val, hmGet s.green_lines (toString rcode) = some n_val → n_val ≤ 50 →
       green_lines_step R E arity rcode s
         = GreenOut.cont (bumpInsert s (toString rcode) (n_val + 1)))
    ∧ (∀ n_val r, hmGet s.green_lines (toString rcode) = some n_val → n_val > 50 →
       E.randomWrapped s.tick arity = Except.ok r →
       (r.code ≠ R.initial_response.code →
          green_lines_step R E arity rcode s
            = GreenOut.halt
                (RunResult.err (R.url ++ " The page became unstable (code)"))
                (recordProbe (bumpInsert s (toString rcode) (n_val + 1))
                  (Probe.randomWrapped arity)))
       ∧ (r.code = R.initial_response.code →
          green_lines_step R E arity rcode s
            = GreenOut.cont
                (recordProbe
                  (bumpInsert (bumpInsert s (toString rcode) (n_val + 1)) (toString rcode) 0)
                  (Probe.randomWrapped arity)))) := by
  refine ⟨?_, ?_, ?_⟩
  · intro h
    simp [green_lines_step, h, bumpInsert]
  · intro n_val h hle
    have hgt : ¬ n_val > 50 := by omega
    simp [green_lines_step, h, hgt, bumpInsert]
  · intro n_val r h hgt hctl
    constructor
    · intro hne
      have hb : (r.code != R.initial_response.code) = true := by
        simp [bne_iff_ne, hne]
      simp [green_lines_step, h, hgt, hctl, hb, recordProbe, bumpInsert]
    · intro heq
      have hb : (r.code != R.initial_response.code) = false := by
        simp [heq]
      simp [green_lines_step, h, hgt, hctl, hb, recordProbe, bumpInsert]

/-- Witness for C7 amended: counter at 51, control probe answers 503 against
baseline 200, so the scan dies with the unstable-page error. -/
theorem claim_C7_amended_witness :
    green_lines_step C7runner C7wenv 1 503 C7s51
      = GreenOut.halt (RunResult.err "u The page became unstable (code)")
          { diffs := [], green_lines := [("503", 52)], found_params := [],
            tick := 1, probes := [Probe.randomWrapped 1] } :=
  ((claim_C7_amended C7runner C7wenv 1 503 C7s51).2.2 51 ⟨503, "x"⟩
    rfl (by decide) rfl).1 (by decide)

/-- C10: when the stability control probe itself fails at the transport
layer, `unwrap_or_default()` substitutes the default response (status code 0);
as long as the baseline code is nonzero this still differs from baseline, so
the bisector returns the fatal unstable-page error rather than an
unreachable-server error. -/
theorem claim_C10_default_response_unstable (R : Runner) (E : Env)
    (arity rcode : Nat) (s : RunState) (n_val : Nat) (e : String)
    (hget : hmGet s.green_lines (toString rcode) = some n_val)
    (hgt : n_val > 50)
    (hfail : E.randomWrapped s.tick arity = Except.error e)
    (hbase : R.initial_response.code ≠ 0) :
    green_lines_step R E arity rcode s
      = GreenOut.halt (RunResult.err (R.url ++ " The page became unstable (code)"))
          (recordProbe (bumpInsert s (toString rcode) (n_val + 1))
            (Probe.randomWrapped arity)) := by
  have hb : (defaultResponse.code != R.initial_response.code) = true := by
    simp only [defaultResponse, bne_iff_ne]
    exact fun h => hbase h.symm
  simp [green_lines_step, hget, hgt, hfail, hb, recordProbe, bumpInsert]

/-- Witness for C10: counter at 51 for code 503, the control probe fails,
baseline 200. -/
theorem claim_C10_default_response_unstable_witness :
    green_lines_step C7runner C10env 1 503 C7s51
      = GreenOut.halt (RunResult.err "u The page became unstable (code)")
          { diffs := [], green_lines := [("503", 52)], found_params := [],
            tick := 1, probes := [Probe.randomWrapped 1] } :=
  claim_C10_default_response_unstable C7runner C10env 1 503 C7s51 51 "down"
    rfl (by decide) rfl (by decide)


/-- Every entry of the reflection sub-phase's resulting found list was already
present or carries a reflection reason. -/
theorem reflectionStep_found_mem (E : Env) (params : List String)
    (response : Response) (s : RunState) (x : FoundParameter)
    (hx : x ∈ (reflectionStep E params response s).state.found_params) :
    x ∈ s.found_params ∨ x.reason = ReasonKind.Reflected ∨
      x.reason = ReasonKind.NotReflected := by
  rcases hR : E.reflect response with ⟨p, rep⟩
  cases p with
  | none =>
    simp only [reflectionStep, hR, StepOut.state] at hx
    exact Or.inl hx
  | some n =>
    by_cases hf : s.found_params.any (fun y => y.name == n) = true
    · simp only [reflectionStep, hR, hf, if_true, StepOut.state] at hx
      exact Or.inl hx
    · simp only [reflectionStep, hR, hf, Bool.false_eq_true, if_false] at hx
      have hstate : ∀ y, y ∈ s.found_params ++
          [FoundParameter.new n [] response.code response.text.length
            (if params.length == 1 then ReasonKind.NotReflected
             else ReasonKind.Reflected)] →
          y ∈ s.found_params ∨ y.reason = ReasonKind.Reflected ∨
            y.reason = ReasonKind.NotReflected := by
        intro y hy
        rcases List.mem_append.mp hy with h | h
        · exact Or.inl h
        · have hy2 : y = FoundParameter.new n [] response.code
              response.text.length
              (if params.length == 1 then ReasonKind.NotReflected
               else ReasonKind.Reflected) := by
            simpa using h
          rw [hy2]
          by_cases hl : (params.length == 1) = true
          · simp [hl, FoundParameter.new]
          · simp [hl, FoundParameter.new]
      rcases hidx : List.findIdx? (fun y => y == n) params with _ | i
      · simp only [hidx, StepOut.state] at hx
        exact hstate x hx
      · rcases hw : E.writeAndSave response
            (if params.length == 1 then ReasonKind.NotReflected
             else ReasonKind.Reflected) n none with m | u
        · simp only [hidx, hw, StepOut.state] at hx
          exact hstate x hx
        · simp only [hidx, hw, StepOut.state] at hx
          exact hstate x hx


/-- Under `reflected_only` with reflection analysis enabled, the post-probe
phases only add reflection-reason findings (given that the recursion `k` does
the same). -/
theorem afterProbeF_found_mem_reflected_only (R : Runner) (E : Env)
    (k : Call → RunState → RunResult × RunState)
    (params : List String) (depth : Nat) (response : Response) (s : RunState)
    (hro : R.config.reflected_only = true) (hsr : R.stable.reflections = true)
    (hk : ∀ c t x, x ∈ (k c t).2.found_params → x ∈ t.found_params ∨
      x.reason = ReasonKind.Reflected ∨ x.reason = ReasonKind.NotReflected)
    (x : FoundParameter)
    (hx : x ∈ (afterProbeF R E k params depth response s).2.found_params) :
    x ∈ s.found_params ∨ x.reason = ReasonKind.Reflected ∨
      x.reason = ReasonKind.NotReflected := by
  rcases hstep : reflectionStep E params response s with ⟨r', s'⟩ | ⟨params', s', rep⟩
  · simp only [afterProbeF, hsr, if_true, hstep] at hx
    have := reflectionStep_found_mem E params response s x (by rw [hstep]; exact hx)
    exact this
  · have hmem : ∀ y, y ∈ s'.found_params → y ∈ s.found_params ∨
        y.reason = ReasonKind.Reflected ∨ y.reason = ReasonKind.NotReflected := by
      intro y hy
      exact reflectionStep_found_mem E params response s y (by rw [hstep]; exact hy)
    cases rep with
    | true =>
      simp only [afterProbeF, hsr, if_true, hstep] at hx
      rcases hk _ _ _ hx with h | h
      · exact hmem x h
      · exact Or.inr h
    | false =>
      simp only [afterProbeF, hsr, hro, if_true, Bool.false_eq_true, if_false] at hx
      rw [hstep] at hx
      exact hmem x hx

/-- Under `reflected_only` with reflection analysis enabled, the whole
recursion only adds reflection-reason findings. -/
theorem runF_found_mem_reflected_only (R : Runner) (E : Env)
    (hro : R.config.reflected_only = true) (hsr : R.stable.reflections = true) :
    ∀ fuel call s x, x ∈ (runF R E fuel call s).2.found_params →
      x ∈ s.found_params ∨ x.reason = ReasonKind.Reflected ∨
        x.reason = ReasonKind.NotReflected := by
  intro fuel
  induction fuel with
  | zero => intro call s x hx; exact Or.inl hx
  | succ fuel ih =>
    intro call s x hx
    rcases call with ⟨params, depth⟩ | ⟨params, depth⟩
    · by_cases he : params.isEmpty
      · simp only [runF, he, if_true] at hx
        exact Or.inl hx
      · by_cases hg : depth > 50
        · simp only [runF, he, hg, if_false, if_true] at hx
          exact Or.inl hx
        · simp only [runF, he, hg, if_false] at hx
          rcases hsend : E.wrappedSend s.tick params with e | val
          · rw [hsend] at hx
            rcases hctl : E.randomSend (recordProbe s (Probe.real params)).tick
                params.length with e2 | r2
            · rw [hctl] at hx
              exact Or.inl hx
            · rw [hctl] at hx
              have := afterProbeF_found_mem_reflected_only R E (runF R E fuel)
                params depth E.emptyResponse
                (recordProbe (recordProbe s (Probe.real params))
                  (Probe.randomPlain params.length))
                hro hsr (fun c t y hy => ih c t y hy) x hx
              exact this
          · rw [hsend] at hx
            have := afterProbeF_found_mem_reflected_only R E (runF R E fuel)
              params depth val (recordProbe s (Probe.real params))
              hro hsr (fun c t y hy => ih c t y hy) x hx
            exact this
    · by_cases hg : depth > 50
      · simp only [runF, hg, if_true] at hx
        exact Or.inl hx
      · by_cases hl : params.length ≤ 1
        · simp only [runF, hg, hl, if_false, if_true] at hx
          exact ih _ _ _ hx
        · simp only [runF, hg, hl, if_false] at hx
          rcases h1 : runF R E fuel
              (Call.check_parameters_recursion (params.take (params.length / 2))
                (depth + 1)) s with ⟨r1, s1⟩
          rw [h1] at hx
          have hs1 : ∀ y, y ∈ s1.found_params → y ∈ s.found_params ∨
              y.reason = ReasonKind.Reflected ∨ y.reason = ReasonKind.NotReflected := by
            intro y hy
            have := ih (Call.check_parameters_recursion
              (params.take (params.length / 2)) (depth + 1)) s y
            rw [h1] at this
            exact this hy
          cases r1 with
          | ok =>
            rcases ih (Call.check_parameters_recursion
                (params.drop (params.length / 2)) (depth + 1)) s1 x hx with h | h
            · exact hs1 x h
            · exact Or.inr h
          | err m => exact hs1 x hx
          | panicked m => exact hs1 x hx


/-- Under `reflected_only` with reflection analysis enabled, the chunk loop
only adds reflection-reason findings. -/
theorem runChunks_found_mem_reflected_only (R : Runner) (E : Env)
    (hro : R.config.reflected_only = true) (hsr : R.stable.reflections = true) :
    ∀ cs s x, x ∈ (runChunks R E cs s).2.found_params →
      x ∈ s.found_params ∨ x.reason = ReasonKind.Reflected ∨
        x.reason = ReasonKind.NotReflected := by
  intro cs
  induction cs with
  | nil => intro s x hx; exact Or.inl hx
  | cons c cs ih =>
    intro s x hx
    simp only [runChunks] at hx
    rcases h1 : runF R E FUEL (Call.check_parameters_recursion c 0) s with ⟨r1, s1⟩
    rw [h1] at hx
    have hs1 : ∀ y, y ∈ s1.found_params → y ∈ s.found_params ∨
        y.reason = ReasonKind.Reflected ∨ y.reason = ReasonKind.NotReflected := by
      intro y hy
      have := runF_found_mem_reflected_only R E hro hsr FUEL
        (Call.check_parameters_recursion c 0) s y
      rw [h1] at this
      exact this hy
    cases r1 with
    | panicked m => exact hs1 x hx
    | ok =>
      rcases ih s1 x hx with h | h
      · exact hs1 x h
      · exact Or.inr h
    | err m =>
      rcases ih s1 x hx with h | h
      · exact hs1 x h
      · exact Or.inr h

/-- C8 amended: for every configuration with `reflected_only = true` AND
reflection analysis enabled (`stable.reflections = true`), every finding
returned by the scan has reason `Reflected` or `NotReflected`. -/
theorem claim_C8_amended (R : Runner) (E : Env) (params : List String)
    (d : List String) (f : List FoundParameter)
    (hro : R.config.reflected_only = true)
    (hsr : R.stable.reflections = true)
    (hcp : check_parameters R E params = CPResult.ok d f) :
    ∀ x ∈ f, x.reason = ReasonKind.Reflected ∨
      x.reason = ReasonKind.NotReflected := by
  intro x hx
  unfold check_parameters at hcp
  by_cases hm : (Nat.min R.max params.length == 0) = true
  · simp [hm] at hcp
  · simp only [hm, Bool.false_eq_true, if_false] at hcp
    rcases hrc : runChunks R E (chunks params (Nat.min R.max params.length))
        { diffs := R.diffs, green_lines := [], found_params := [],
          tick := 0, probes := [] } with ⟨o, st⟩
    rw [hrc] at hcp
    cases o with
    | some m => simp at hcp
    | none =>
      simp only [CPResult.ok.injEq] at hcp
      have hxf : x ∈ st.found_params := by
        rw [hcp.2]
        exact hx
      have := runChunks_found_mem_reflected_only R E hro hsr
        (chunks params (Nat.min R.max params.length))
        { diffs := R.diffs, green_lines := [], found_params := [],
          tick := 0, probes := [] } x
      rw [hrc] at this
      rcases this hxf with h | h
      · simp at h
      · exact h


/-- C8 counterexample: with `reflected_only = true` but reflection analysis
disabled (`stable.reflections = false`), the scan still records a finding
with reason `Code`, refuting the claim for this configuration. -/
theorem claim_C8_counterexample :
    C8runner.config.reflected_only = true
    ∧ check_parameters C8runner C8env ["a"]
        = CPResult.ok [] [FoundParameter.new "a" ["200 -> 500"] 500 1 ReasonKind.Code]
    ∧ ((FoundParameter.new "a" ["200 -> 500"] 500 1 ReasonKind.Code).reason
        == ReasonKind.Reflected) = false
    ∧ ((FoundParameter.new "a" ["200 -> 500"] 500 1 ReasonKind.Code).reason
        == ReasonKind.NotReflected) = false :=
  ⟨rfl, rfl, rfl, rfl⟩

/-- Witness for C8 amended at a concrete reflected-only scan. -/
theorem claim_C8_amended_witness :
    (FoundParameter.new "a" [] 200 3 ReasonKind.Reflected).reason
        = ReasonKind.Reflected
      ∨ (FoundParameter.new "a" [] 200 3 ReasonKind.Reflected).reason
        = ReasonKind.NotReflected :=
  claim_C8_amended C8wrunner C8wenv ["a", "b"] []
    [FoundParameter.new "a" [] 200 3 ReasonKind.Reflected] rfl rfl rfl
    (FoundParameter.new "a" [] 200 3 ReasonKind.Reflected)
    (List.mem_singleton.mpr rfl)


/-- The reflection sub-phase's push is membership-guarded: it preserves
per-name uniqueness of the found list. -/
theorem reflectionStep_nodup (E : Env) (params : List String)
    (response : Response) (s : RunState)
    (hnd : (s.found_params.map FoundParameter.name).Nodup) :
    ((reflectionStep E params response s).state.found_params.map
      FoundParameter.name).Nodup := by
  rcases hR : E.reflect response with ⟨p, rep⟩
  cases p with
  | none =>
    simp only [reflectionStep, hR, StepOut.state]
    exact hnd
  | some n =>
    by_cases hf : s.found_params.any (fun y => y.name == n) = true
    · simp only [reflectionStep, hR, hf, if_true, StepOut.state]
      exact hnd
    · have hnotin : n ∉ s.found_params.map FoundParameter.name := by
        intro hmem
        rcases List.mem_map.mp hmem with ⟨y, hy, hyn⟩
        exact hf (List.any_eq_true.mpr ⟨y, hy, by simp [hyn]⟩)
      have hpush : ((s.found_params ++
          [FoundParameter.new n [] response.code response.text.length
            (if params.length == 1 then ReasonKind.NotReflected
             else ReasonKind.Reflected)]).map FoundParameter.name).Nodup := by
        rw [List.map_append, List.nodup_append]
        refine ⟨hnd, by simp, ?_⟩
        intro a ha hb
        simp [FoundParameter.new] at hb
        rw [hb] at ha
        exact hnotin ha
      rcases hidx : List.findIdx? (fun y => y == n) params with _ | i
      · simp only [reflectionStep, hR, hf, Bool.false_eq_true, if_false, hidx,
          StepOut.state]
        exact hpush
      · rcases hw : E.writeAndSave response
            (if params.length == 1 then ReasonKind.NotReflected
             else ReasonKind.Reflected) n none with m | u
        · simp only [reflectionStep, hR, hf, Bool.false_eq_true, if_false, hidx,
            hw, StepOut.state]
          exact hpush
        · simp only [reflectionStep, hR, hf, Bool.false_eq_true, if_false, hidx,
            hw, StepOut.state]
          exact hpush

/-- The body sub-phase's push is membership-guarded: it preserves per-name
uniqueness of the found list. -/
theorem bodyStep_nodup (R : Runner) (E : Env) (params : List String)
    (response : Response) (s : RunState)
    (hnd : (s.found_params.map FoundParameter.name).Nodup) :
    ((bodyStep R E params response s).state.found_params.map
      FoundParameter.name).Nodup := by
  have hpush : ∀ (nd : List String),
      s.found_params.any (fun x => x.name == params.headD "") = false →
      ((s.found_params ++
        [FoundParameter.new (params.headD "") nd response.code
          response.text.length ReasonKind.Text]).map FoundParameter.name).Nodup := by
    intro nd hf
    have hnotin : (params.headD "") ∉ s.found_params.map FoundParameter.name := by
      intro hmem
      rcases List.mem_map.mp hmem with ⟨y, hy, hyn⟩
      have : s.found_params.any (fun z => z.name == params.headD "") = true :=
        List.any_eq_true.mpr ⟨y, hy, by simp [hyn]⟩
      rw [this] at hf
      cases hf
    rw [List.map_append, List.nodup_append]
    refine ⟨hnd, by simp, ?_⟩
    intro a ha hb
    simp only [List.map_cons, List.map_nil, List.mem_singleton,
      FoundParameter.new] at hb
    rw [hb] at ha
    exact hnotin ha
  rcases hc : E.compare response s.diffs with m | cres
  · simp only [bodyStep, hc, BodyOut.state]
    exact hnd
  · by_cases hemp : (!cres.2.isEmpty) = true
    · by_cases hstrict : (R.config.strict && s.found_params.any (fun x =>
          x.diffs == String.intercalate "|" cres.2)) = true
      · simp only [bodyStep, hc, hemp, if_true, hstrict, BodyOut.state]
        exact hnd
      · rcases hctl : E.randomSend s.tick params.length with m2 | tmp
        · simp only [bodyStep, hc, hemp, if_true, hstrict, Bool.false_eq_true,
            if_false, hctl, BodyOut.state, recordProbe]
          exact hnd
        · rcases hc2 : E.compare tmp s.diffs with m3 | tres
          · simp only [bodyStep, hc, hemp, if_true, hstrict, Bool.false_eq_true,
              if_false, hctl, recordProbe, hc2, BodyOut.state]
            exact hnd
          · rcases hfind : cres.2.find? (fun d =>
                !(s.diffs ++ tres.2).contains d) with _ | diff
            · simp only [bodyStep, hc, hemp, if_true, hstrict, Bool.false_eq_true,
                if_false, hctl, hc2, hfind, BodyOut.state, recordProbe]
              exact hnd
            · by_cases hone : (params.length == 1 &&
                  !(s.found_params.any (fun x => x.name == params.headD ""))) = true
              · rcases hw : E.writeAndSave response ReasonKind.Text
                    (params.headD "") (some diff) with m4 | u
                · simp only [bodyStep, hc, hemp, if_true, hstrict,
                    Bool.false_eq_true, if_false, hctl, recordProbe, hc2, hfind,
                    hone, hw, BodyOut.state]
                  exact hnd
                · simp only [bodyStep, hc, hemp, if_true, hstrict,
                    Bool.false_eq_true, if_false, hctl, recordProbe, hc2, hfind,
                    hone, hw, BodyOut.state]
                  exact hpush cres.2
                    (Bool.not_eq_true' .. |>.mp (Bool.and_eq_true .. |>.mp hone).2)
              · simp only [bodyStep, hc, hemp, if_true, hstrict,
                  Bool.false_eq_true, if_false, hctl, recordProbe, hc2, hfind,
                  hone, BodyOut.state]
                exact hnd
    · rcases hfind : cres.2.find? (fun d => !s.diffs.contains d) with _ | diff
      · simp only [bodyStep, hc, hemp, Bool.false_eq_true, if_false, hfind,
          BodyOut.state]
        exact hnd
      · by_cases hone : (params.length == 1 &&
            !(s.found_params.any (fun x => x.name == params.headD ""))) = true
        · by_cases hstrict2 : (R.config.strict && s.found_params.any (fun x =>
              x.diffs == String.intercalate "|" cres.2)) = true
          · simp only [bodyStep, hc, hemp, Bool.false_eq_true, if_false, hfind,
              hone, if_true, hstrict2, BodyOut.state]
            exact hnd
          · rcases hw : E.writeAndSave response ReasonKind.Text
                (params.headD "") (some diff) with m4 | u
            · simp only [bodyStep, hc, hemp, Bool.false_eq_true, if_false,
                hfind, hone, if_true, hstrict2, hw, BodyOut.state]
              exact hnd
            · simp only [bodyStep, hc, hemp, Bool.false_eq_true, if_false,
                hfind, hone, if_true, hstrict2, hw, BodyOut.state]
              exact hpush cres.2
                (Bool.not_eq_true' .. |>.mp (Bool.and_eq_true .. |>.mp hone).2)
        · simp only [bodyStep, hc, hemp, Bool.false_eq_true, if_false, hfind,
            hone, BodyOut.state]
          exact hnd


/-- C9 counterexample: the code-difference push is not membership-guarded, so
a dictionary repeating a name yields two `found` entries with the same name:
the returned list contains "a" twice. -/
theorem claim_C9_counterexample :
    check_parameters C9runner C9env ["a", "a"]
      = CPResult.ok []
          [FoundParameter.new "a" ["200 -> 500"] 500 1 ReasonKind.Code,
           FoundParameter.new "a" ["200 -> 500"] 500 1 ReasonKind.Code]
    ∧ (FoundParameter.new "a" ["200 -> 500"] 500 1 ReasonKind.Code).name = "a" :=
  ⟨rfl, rfl⟩

/-- C9 amended: the reflection and body (Text) append sites are
membership-guarded and preserve per-name uniqueness of the found list; the
code-difference append site is unguarded, so uniqueness holds only for those
two sites (a repeated dictionary name can be recorded twice with reason
`Code`). -/
theorem claim_C9_amended (R : Runner) (E : Env) (params : List String)
    (response : Response) (s : RunState)
    (hnd : (s.found_params.map FoundParameter.name).Nodup) :
    ((reflectionStep E params response s).state.found_params.map
      FoundParameter.name).Nodup
    ∧ ((bodyStep R E params response s).state.found_params.map
      FoundParameter.name).Nodup :=
  ⟨reflectionStep_nodup E params response s hnd,
   bodyStep_nodup R E params response s hnd⟩

/-- Witness for C9 amended at a concrete state. -/
theorem claim_C9_amended_witness :
    ((reflectionStep C9env ["q"] ⟨200, "t"⟩ emptyState).state.found_params.map
      FoundParameter.name).Nodup
    ∧ ((bodyStep C9runner C9env ["q"] ⟨200, "t"⟩ emptyState).state.found_params.map
      FoundParameter.name).Nodup :=
  claim_C9_amended C9runner C9env ["q"] ⟨200, "t"⟩ emptyState (by decide)


end x8
